import Mathlib

/-
Verification of the RabbitMQ worker script `run_cellphonedb_rabbitmq.py`.

The script is a single-threaded worker: it polls a job queue, dispatches each
dequeued message to a handler (`process_plot` when the configured queue name is
"plot_jobs", otherwise `process_method`), and publishes exactly one response
per handled message to a result queue.  The statistical analysis, the S3
object store and the broker are external collaborators; they are modelled by
an oracle structure `Ext` whose fields say whether each external call succeeds
and which Python exception it raises when it fails.  Broker operations
(connection creation and publish) are modelled as infallible, as none of the
properties below concerns broker faults.

Machine-level caveats of the model:
  - JSON payloads are modelled as association lists of scalar values
    (`JObj`); an undecodable body is `none`.
  - Python `float()` / `int()` coercions are modelled on numeric and boolean
    scalars; numeric string parsing is not modelled (no property below feeds
    string-typed numbers), a non-coercible value raises a generic error.
  - Python float literals are modelled as rationals (`0.05` is `mkRat 1 20`);
    no float arithmetic occurs in the script, values are only passed through.
  - logging calls (`app_logger`, `traceback`) are side-effect free and are
    not modelled.
-/

namespace CpdbWorker

/-- JSON scalar values as they occur in job payloads. -/
inductive JValue where
  | str (s : String)
  | int (n : Int)
  | float (q : Rat)
  | bool (b : Bool)
  | null
  deriving DecidableEq, Repr

/-- A decoded JSON object: association list from field name to value. -/
abbrev JObj := List (String × JValue)

/-- A raw message body: `none` models a body that `json.loads` rejects. -/
abbrev Body := Option JObj

/-- Python `str()` rendering of a scalar, as used by `'...'.format(x)`. -/
def pyStr : JValue → String
  | .str s => s
  | .int n => toString n
  | .float q => toString q
  | .bool true => "True"
  | .bool false => "False"
  | .null => "None"

/-- Python truthiness of a scalar (`if metadata['iterations']:` etc.). -/
def truthy : JValue → Bool
  | .str s => decide (s ≠ "")
  | .int n => decide (n ≠ 0)
  | .float q => decide (q ≠ 0)
  | .bool b => b
  | .null => false

/-- Python exceptions reachable in the script.  `domain` carries the
exception class name, `str(e)`, and the optional `description` / `hint`
attributes inspected by the error path of the main loop.  `keyError` is a
`KeyError` from a `metadata[...]` lookup, `jsonDecodeError` a failure of
`json.loads`, and `other` any remaining exception with its diagnostic text. -/
inductive PyError where
  | keyError (k : String)
  | jsonDecodeError
  | domain (className : String) (msg : String)
      (description : Option String) (hint : Option String)
  | other (detail : String)
  deriving DecidableEq, Repr

/-- Python `str(e)`.  For an exception constructed with a single message
argument this is that message; `KeyError` renders the missing key quoted. -/
def str_e : PyError → String
  | .keyError k => "\x27" ++ k ++ "\x27"
  | .jsonDecodeError => "JSONDecodeError"
  | .domain _ msg _ _ => msg
  | .other detail => detail

/-- One `' {}.'.format(attr)` fragment of the error message: present and
truthy attributes contribute, absent or empty ones contribute nothing. -/
def attrPart : Option String → String
  | some s => if s = "" then "" else " " ++ s ++ "."
  | none => ""

/-- Message built by the classified except block from the optional
`description` and `hint` attributes of the exception. -/
def errMessage : PyError → String
  | .domain _ _ d h => attrPart d ++ attrPart h
  | _ => ""

/-- Exception classes named by the first (classified) except clause of the
main loop. -/
def classified_exceptions : List String :=
  ["ReadFileException", "ParseMetaException", "ParseCountsException",
   "ThresholdValueException", "AllCountsFilteredException",
   "EmptyResultException", "PlotException"]

/-- Whether the first except clause of the main loop catches the exception. -/
def isClassified : PyError → Bool
  | .domain n _ _ _ => classified_exceptions.contains n
  | _ => false

/-- Python `metadata[k]`: the value, or a raised `KeyError`. -/
def jitem (metadata : JObj) (k : String) : Except PyError JValue :=
  match List.lookup k metadata with
  | some v => .ok v
  | none => .error (.keyError k)

/-- Python `metadata.get(k, d)`. -/
def jget (metadata : JObj) (k : String) (d : JValue) : JValue :=
  (List.lookup k metadata).getD d

/-- Python `json.loads(body.decode('utf-8'))`. -/
def jsonLoads : Body → Except PyError JObj
  | some metadata => .ok metadata
  | none => .error .jsonDecodeError

/-- Python `int(v)` on a JSON scalar (truncation toward zero on floats;
numeric strings are out of the modelled input space). -/
def pyInt : JValue → Except PyError Int
  | .int n => .ok n
  | .bool true => .ok 1
  | .bool false => .ok 0
  | .float q => .ok (q.num / (q.den : Int))
  | .str _ => .error (.other "ValueError")
  | .null => .error (.other "TypeError")

/-- Python `float(v)` on a JSON scalar. -/
def pyFloat : JValue → Except PyError Rat
  | .int n => .ok (n : Rat)
  | .bool true => .ok 1
  | .bool false => .ok 0
  | .float q => .ok q
  | .str _ => .error (.other "ValueError")
  | .null => .error (.other "TypeError")

/-- The `error` object of a failure response. -/
structure ErrorInfo where
  id : String
  message : String
  deriving DecidableEq, Repr

/-- A response dict as published to the result queue: `files` maps logical
artifact names to storage keys; failure responses carry an `error` object. -/
structure Response where
  job_id : String
  success : Bool
  files : List (String × String)
  error : Option ErrorInfo
  deriving DecidableEq, Repr

/-- Storage keys listed by a response, in files-mapping order. -/
def filesKeys (r : Response) : List String := r.files.map Prod.snd

/-- Arguments coerced for `cpdb_statistical_analysis_launcher` (the fixed
`debug_seed=-1` and `threads=4` are not repeated here). -/
structure StatArgs where
  threshold : Rat
  iterations : Int
  result_precision : Int
  pvalue : Rat
  deriving DecidableEq, Repr

/-- The `Subsampler` constructed from the payload when `subsampling` is
truthy. -/
structure Subsampler where
  log : Bool
  num_pc : Int
  num_cells : Option Int
  deriving DecidableEq, Repr

/-- Observable external actions of a handler and of the main loop, in
program order: S3 writes, external computation invocations, publishes. -/
inductive Event where
  | s3write (key : String)
  | statCall (args : StatArgs)
  | methodCall (threshold : Rat) (result_precision : Int)
  | plotCall (plot_name : String)
  | publish (response : Response)
  deriving DecidableEq, Repr

/-- Oracle for the external collaborators: S3 reads, the two analysis
launchers, the two R plotting routines, and whether the plot output files
exist after the plotting call (`os.path.exists`). -/
structure Ext where
  read_s3 : String → Except PyError Unit
  s3_get : String → Except PyError Unit
  stat_launcher : Except PyError Unit
  method_launcher : Except PyError Unit
  dot_plot_call : Except PyError Unit
  heatmaps_plot_call : Except PyError Unit
  dot_plot_output_exists : Bool
  heatmaps_count_exists : Bool
  heatmaps_count_log_exists : Bool

/-- Oracle in which every external call succeeds and all plot outputs are
produced. -/
def extOk : Ext where
  read_s3 := fun _ => .ok ()
  s3_get := fun _ => .ok ()
  stat_launcher := .ok ()
  method_launcher := .ok ()
  dot_plot_call := .ok ()
  heatmaps_plot_call := .ok ()
  dot_plot_output_exists := true
  heatmaps_count_exists := true
  heatmaps_count_log_exists := true

/-- Argument coercions of `statistical_analysis`, in evaluation order:
`float(metadata['threshold'])`, `int(metadata['iterations'])`,
`int(metadata['result_precision'])`, `float(metadata.get('pvalue', 0.05))`. -/
def statArgs (metadata : JObj) : Except PyError StatArgs :=
  match jitem metadata "threshold" with
  | .error e => .error e
  | .ok tv =>
    match pyFloat tv with
    | .error e => .error e
    | .ok threshold =>
      match jitem metadata "iterations" with
      | .error e => .error e
      | .ok iv =>
        match pyInt iv with
        | .error e => .error e
        | .ok iterations =>
          match jitem metadata "result_precision" with
          | .error e => .error e
          | .ok rv =>
            match pyInt rv with
            | .error e => .error e
            | .ok result_precision =>
              match pyFloat (jget metadata "pvalue" (JValue.float (mkRat 1 20))) with
              | .error e => .error e
              | .ok pvalue => .ok { threshold, iterations, result_precision, pvalue }

/-- Argument coercions of `non_statistical_analysis`:
`float(metadata['threshold'])`, `int(metadata['result_precision'])`. -/
def methodArgs (metadata : JObj) : Except PyError (Rat × Int) :=
  match jitem metadata "threshold" with
  | .error e => .error e
  | .ok tv =>
    match pyFloat tv with
    | .error e => .error e
    | .ok threshold =>
      match jitem metadata "result_precision" with
      | .error e => .error e
      | .ok rv =>
        match pyInt rv with
        | .error e => .error e
        | .ok result_precision => .ok (threshold, result_precision)

/-- Output storage keys of `statistical_analysis`, in dict order. -/
def statFiles (job_id : String) : List (String × String) :=
  [("pvalues", "pvalues_simple_" ++ job_id ++ ".txt"),
   ("means", "means_simple_" ++ job_id ++ ".txt"),
   ("significant_means", "significant_means_simple_" ++ job_id ++ ".txt"),
   ("deconvoluted", "deconvoluted_simple_" ++ job_id ++ ".txt")]

/-- Output storage keys of `non_statistical_analysis`, in dict order. -/
def methodFiles (job_id : String) : List (String × String) :=
  [("means", "means_simple_" ++ job_id ++ ".txt"),
   ("significant_means", "significant_means_" ++ job_id ++ ".txt"),
   ("deconvoluted", "deconvoluted_simple_" ++ job_id ++ ".txt")]

/-- `statistical_analysis`: coerce arguments, invoke the launcher, build the
response dict, then write each output file under its response key. -/
def statistical_analysis (ext : Ext) (job_id : String) (metadata : JObj)
    (_subsampler : Option Subsampler) : List Event × Except PyError Response :=
  match statArgs metadata with
  | .error e => ([], .error e)
  | .ok a =>
    match ext.stat_launcher with
    | .error e => ([Event.statCall a], .error e)
    | .ok _ =>
      ([Event.statCall a] ++ (statFiles job_id).map (fun p => Event.s3write p.2),
       .ok { job_id := job_id, success := true, files := statFiles job_id, error := none })

/-- `non_statistical_analysis`: coerce arguments, invoke the launcher, build
the response dict, then write each output file under its response key. -/
def non_statistical_analysis (ext : Ext) (job_id : String) (metadata : JObj)
    (_subsampler : Option Subsampler) : List Event × Except PyError Response :=
  match methodArgs metadata with
  | .error e => ([], .error e)
  | .ok a =>
    match ext.method_launcher with
    | .error e => ([Event.methodCall a.1 a.2], .error e)
    | .ok _ =>
      ([Event.methodCall a.1 a.2] ++ (methodFiles job_id).map (fun p => Event.s3write p.2),
       .ok { job_id := job_id, success := true, files := methodFiles job_id, error := none })

/-- Subsampler construction of `process_method`: evaluated only when
`metadata.get('subsampling', False)` is truthy; `bool(metadata['log'])`,
`int(metadata['num_pc'])`, and `int(metadata['num_cells'])` guarded by
`metadata.get('num_cells', False)`. -/
def mkSubsampler (metadata : JObj) : Except PyError (Option Subsampler) :=
  if truthy (jget metadata "subsampling" (JValue.bool false)) then
    match jitem metadata "log" with
    | .error e => .error e
    | .ok lv =>
      match jitem metadata "num_pc" with
      | .error e => .error e
      | .ok pv =>
        match pyInt pv with
        | .error e => .error e
        | .ok num_pc =>
          if truthy (jget metadata "num_cells" (JValue.bool false)) then
            match jitem metadata "num_cells" with
            | .error e => .error e
            | .ok cv =>
              match pyInt cv with
              | .error e => .error e
              | .ok nc => .ok (some { log := truthy lv, num_pc := num_pc, num_cells := some nc })
          else .ok (some { log := truthy lv, num_pc := num_pc, num_cells := none })
  else .ok none

/-- Event-free prelude of `process_method`: decode the body, read `job_id`,
stage `file_meta` and `file_counts` from S3, build the subsampler, and fetch
the `iterations` value used for path selection. -/
def methodPrelude (ext : Ext) (body : Body) :
    Except PyError (String × JObj × Option Subsampler × JValue) :=
  match jsonLoads body with
  | .error e => .error e
  | .ok metadata =>
    match jitem metadata "job_id" with
    | .error e => .error e
    | .ok jid =>
      match jitem metadata "file_meta" with
      | .error e => .error e
      | .ok fm =>
        match ext.read_s3 (pyStr fm) with
        | .error e => .error e
        | .ok _ =>
          match jitem metadata "file_counts" with
          | .error e => .error e
          | .ok fc =>
            match ext.read_s3 (pyStr fc) with
            | .error e => .error e
            | .ok _ =>
              match mkSubsampler metadata with
              | .error e => .error e
              | .ok subsampler =>
                match jitem metadata "iterations" with
                | .error e => .error e
                | .ok itv => .ok (pyStr jid, metadata, subsampler, itv)

/-- `process_method`: after the prelude, `if metadata['iterations']:` selects
the statistical path, else the non-statistical path. -/
def process_method (ext : Ext) (body : Body) : List Event × Except PyError Response :=
  match methodPrelude ext body with
  | .error e => ([], .error e)
  | .ok (job_id, metadata, subsampler, itv) =>
    if truthy itv then statistical_analysis ext job_id metadata subsampler
    else non_statistical_analysis ext job_id metadata subsampler

/-- Staging of the four dot-plot inputs via `_from_s3_to_temp`, in source
order: means, pvalues, rows, columns. -/
def stage_dot_inputs (ext : Ext) (means pvalues rows columns : JValue) :
    Except PyError Unit :=
  match ext.s3_get (pyStr means) with
  | .error e => .error e
  | .ok _ =>
    match ext.s3_get (pyStr pvalues) with
    | .error e => .error e
    | .ok _ =>
      match ext.s3_get (pyStr rows) with
      | .error e => .error e
      | .ok _ => ext.s3_get (pyStr columns)

/-- `dot_plot_results`: stage inputs, call the R `dot_plot`, raise
`PlotException` when the output file is absent, otherwise build the response,
upload the image and return. -/
def dot_plot_results (ext : Ext) (means pvalues rows columns : JValue)
    (job_id : String) : List Event × Except PyError Response :=
  match stage_dot_inputs ext means pvalues rows columns with
  | .error e => ([], .error e)
  | .ok _ =>
    match ext.dot_plot_call with
    | .error e => ([Event.plotCall "dot_plot"], .error e)
    | .ok _ =>
      if ext.dot_plot_output_exists then
        ([Event.plotCall "dot_plot",
          Event.s3write ("plot__" ++ job_id ++ ".png")],
         .ok { job_id := job_id, success := true,
               files := [("plot", "plot__" ++ job_id ++ ".png")], error := none })
      else
        ([Event.plotCall "dot_plot"],
         .error (.domain "PlotException"
           "Could not generate output file for plot of type dot_plot" none none))

/-- Staging of the two heatmaps inputs via `_from_s3_to_temp`, in source
order: pvalues first, then meta. -/
def stage_heatmaps_inputs (ext : Ext) (meta pvalues : JValue) :
    Except PyError Unit :=
  match ext.s3_get (pyStr pvalues) with
  | .error e => .error e
  | .ok _ => ext.s3_get (pyStr meta)

/-- `heatmaps_plot_results`: stage inputs, call the R `heatmaps_plot`, raise
`PlotException` when either output file is absent (the message names
`dot_plot`, exactly as in the source), otherwise build the response, upload
both images and return. -/
def heatmaps_plot_results (ext : Ext) (meta pvalues : JValue)
    (job_id : String) : List Event × Except PyError Response :=
  match stage_heatmaps_inputs ext meta pvalues with
  | .error e => ([], .error e)
  | .ok _ =>
    match ext.heatmaps_plot_call with
    | .error e => ([Event.plotCall "heatmaps_plot"], .error e)
    | .ok _ =>
      if !ext.heatmaps_count_exists || !ext.heatmaps_count_log_exists then
        ([Event.plotCall "heatmaps_plot"],
         .error (.domain "PlotException"
           "Could not generate output file for plot of type dot_plot" none none))
      else
        ([Event.plotCall "heatmaps_plot",
          Event.s3write ("plot_count__" ++ job_id ++ ".png"),
          Event.s3write ("plot_count_log__" ++ job_id ++ ".png")],
         .ok { job_id := job_id, success := true,
               files := [("count_plot", "plot_count__" ++ job_id ++ ".png"),
                         ("count_log_plot", "plot_count_log__" ++ job_id ++ ".png")],
               error := none })

/-- Event-free prelude of `process_plot`: decode the body, read `job_id`,
and fetch `metadata.get('type', None)`. -/
def plotPrelude (body : Body) : Except PyError (String × JObj × JValue) :=
  match jsonLoads body with
  | .error e => .error e
  | .ok metadata =>
    match jitem metadata "job_id" with
    | .error e => .error e
    | .ok jid => .ok (pyStr jid, metadata, jget metadata "type" JValue.null)

/-- `process_plot`: dispatch on the declared plot type; an unregistered type
returns (normally) a failure dict with id `UnknownPlotType`. -/
def process_plot (ext : Ext) (body : Body) : List Event × Except PyError Response :=
  match plotPrelude body with
  | .error e => ([], .error e)
  | .ok (job_id, metadata, plot_type) =>
    if plot_type = JValue.str "dot_plot" then
      dot_plot_results ext (jget metadata "file_means" JValue.null)
        (jget metadata "file_pvalues" JValue.null)
        (jget metadata "file_rows" JValue.null)
        (jget metadata "file_columns" JValue.null) job_id
    else if plot_type = JValue.str "heatmaps_plot" then
      heatmaps_plot_results ext (jget metadata "file_meta" JValue.null)
        (jget metadata "file_pvalues" JValue.null) job_id
    else
      ([], .ok { job_id := job_id, success := false, files := [],
                 error := some { id := "UnknownPlotType",
                                 message := "Given plot type does not exist: " ++ pyStr plot_type } })

/-- Handler dispatch of the main loop:
`if jobs_queue_name == 'plot_jobs': process_plot(*job) else: process_method(*job)`. -/
def process (ext : Ext) (jobs_queue_name : String) (body : Body) :
    List Event × Except PyError Response :=
  if jobs_queue_name = "plot_jobs" then process_plot ext body
  else process_method ext body

/-- Module-level flag of the script; it is never written after
initialisation, so the loop guard `jobs_runned < 3 and consume_more_jobs`
depends only on the counter. -/
def consume_more_jobs : Bool := true

/-- State of the main worker loop.  `conn_closed` is whether the current
broker connection reports closed, `conns_created` counts calls to
`create_rabbit_connection` (the startup connection included), `jobs_runned`
is the loop counter, `queue` the pending job-queue messages, `published` the
messages published so far to the result queue, and `events` the full
external-action trace. -/
structure WorkerState where
  conn_closed : Bool
  conns_created : Nat
  jobs_runned : Nat
  queue : List Body
  published : List Response
  events : List Event
  deriving DecidableEq, Repr

/-- Worker state right after startup: one connection created and open, no
job handled yet. -/
def initState (queue : List Body) : WorkerState :=
  { conn_closed := false, conns_created := 1, jobs_runned := 0,
    queue := queue, published := [], events := [] }

/-- Handling of one dequeued message (the try/except body of the main loop).
On handler return the connection is rebuilt unconditionally and the returned
dict is published.  On a handler exception either except block first rebuilds
the `job_id` of the error response by re-decoding the body (an exception
there — body undecodable or `job_id` absent — propagates out of the loop),
logs, reconnects only when the connection reports closed, and publishes the
error response.  Both paths then increment `jobs_runned`. -/
def handle_job (ext : Ext) (jobs_queue_name : String) (body : Body)
    (s : WorkerState) : Except PyError WorkerState :=
  match process ext jobs_queue_name body with
  | (evs, .ok job_response) =>
    .ok { s with
      conn_closed := false,
      conns_created := s.conns_created + 1,
      events := s.events ++ evs ++ [Event.publish job_response],
      published := s.published ++ [job_response],
      jobs_runned := s.jobs_runned + 1 }
  | (evs, .error e) =>
    match jsonLoads body with
    | .error e2 => .error e2
    | .ok metadata =>
      match jitem metadata "job_id" with
      | .error e2 => .error e2
      | .ok jid =>
        let error_response : Response :=
          { job_id := pyStr jid, success := false, files := [],
            error := some (if isClassified e then
                { id := str_e e, message := errMessage e }
              else
                { id := "unknown_error", message := "" }) }
        .ok { s with
          conn_closed := false,
          conns_created := s.conns_created + (if s.conn_closed then 1 else 0),
          events := s.events ++ evs ++ [Event.publish error_response],
          published := s.published ++ [error_response],
          jobs_runned := s.jobs_runned + 1 }

/-- One iteration of the `while` body: a non-blocking `basic_get`; an empty
queue only logs at debug level and sleeps, a dequeued message is handled. -/
def worker_step (ext : Ext) (jobs_queue_name : String) (s : WorkerState) :
    Except PyError WorkerState :=
  match s.queue with
  | [] => .ok s
  | body :: rest => handle_job ext jobs_queue_name body { s with queue := rest }

/-- Outcome of running the loop with the given iteration fuel: the guard
became false (`exited`), the fuel ran out with the guard still true
(`fuel_out`), or an exception escaped the loop (`crashed`, with the state at
the start of the fatal iteration). -/
inductive RunResult where
  | exited (s : WorkerState)
  | fuel_out (s : WorkerState)
  | crashed (e : PyError) (s : WorkerState)
  deriving DecidableEq, Repr

/-- Worker state carried by a run outcome. -/
def RunResult.state : RunResult → WorkerState
  | .exited s => s
  | .fuel_out s => s
  | .crashed _ s => s

/-- The main loop `while jobs_runned < 3 and consume_more_jobs`, indexed by
iteration fuel. -/
def run_worker (ext : Ext) (jobs_queue_name : String) :
    Nat → WorkerState → RunResult
  | 0, s => .fuel_out s
  | Nat.succ n, s =>
    if s.jobs_runned < 3 ∧ consume_more_jobs = true then
      match worker_step ext jobs_queue_name s with
      | .ok s2 => run_worker ext jobs_queue_name n s2
      | .error e => .crashed e s
    else .exited s

/-- Published result list of a loop-iteration outcome. -/
def publishedOf (r : Except PyError WorkerState) : Option (List Response) :=
  r.toOption.map WorkerState.published

/-- Event trace of a loop-iteration outcome. -/
def eventsOf (r : Except PyError WorkerState) : Option (List Event) :=
  r.toOption.map WorkerState.events

/-- Connection-creation count of a loop-iteration outcome. -/
def connsOf (r : Except PyError WorkerState) : Option Nat :=
  r.toOption.map WorkerState.conns_created

/-- Loop-counter value of a loop-iteration outcome. -/
def runnedOf (r : Except PyError WorkerState) : Option Nat :=
  r.toOption.map WorkerState.jobs_runned

/-- Remaining queue of a loop-iteration outcome. -/
def queueOf (r : Except PyError WorkerState) : Option (List Body) :=
  r.toOption.map WorkerState.queue

/-- Storage keys listed by a handler outcome, when it returned normally. -/
def filesKeysOf (p : List Event × Except PyError Response) : Option (List String) :=
  p.2.toOption.map filesKeys

/-- Success flag of a handler outcome, when it returned normally. -/
def successOf (p : List Event × Except PyError Response) : Option Bool :=
  p.2.toOption.map Response.success

/-- Representative method-job payload: valid storage keys, threshold 0.5,
result precision 6, no subsampling, parametric `job_id` and iteration
count. -/
def methodBody (j : String) (n : Int) : Body :=
  some [("job_id", JValue.str j), ("file_meta", JValue.str "meta_key"),
        ("file_counts", JValue.str "counts_key"), ("iterations", JValue.int n),
        ("threshold", JValue.float (mkRat 1 2)), ("result_precision", JValue.int 6)]

/-- Helper: a normal return of `statistical_analysis` carries the response
built from `statFiles` and the trace launcher-call-then-writes. -/
theorem statistical_analysis_ok {ext : Ext} {jid : String} {kv : JObj}
    {sub : Option Subsampler} {evs : List Event} {resp : Response}
    (h : statistical_analysis ext jid kv sub = (evs, .ok resp)) :
    ∃ a, statArgs kv = .ok a ∧
      evs = Event.statCall a :: (statFiles jid).map (fun p => Event.s3write p.2) ∧
      resp = { job_id := jid, success := true, files := statFiles jid, error := none } := by
  unfold statistical_analysis at h
  split at h
  · simp at h
  · rename_i a ha
    split at h
    · simp at h
    · simp only [Prod.mk.injEq, Except.ok.injEq] at h
      exact ⟨a, ha, h.1.symm, h.2.symm⟩

/-- Helper: a normal return of `non_statistical_analysis` carries the
response built from `methodFiles` and the trace launcher-call-then-writes. -/
theorem non_statistical_analysis_ok {ext : Ext} {jid : String} {kv : JObj}
    {sub : Option Subsampler} {evs : List Event} {resp : Response}
    (h : non_statistical_analysis ext jid kv sub = (evs, .ok resp)) :
    ∃ a, methodArgs kv = .ok a ∧
      evs = Event.methodCall a.1 a.2 :: (methodFiles jid).map (fun p => Event.s3write p.2) ∧
      resp = { job_id := jid, success := true, files := methodFiles jid, error := none } := by
  unfold non_statistical_analysis at h
  split at h
  · simp at h
  · rename_i a ha
    split at h
    · simp at h
    · simp only [Prod.mk.injEq, Except.ok.injEq] at h
      exact ⟨a, ha, h.1.symm, h.2.symm⟩

/-- Helper: a normal return of `dot_plot_results` echoes the job id and has
written every storage key its response lists. -/
theorem dot_plot_results_ok {ext : Ext} {means pvalues rows columns : JValue}
    {jid : String} {evs : List Event} {resp : Response}
    (h : dot_plot_results ext means pvalues rows columns jid = (evs, .ok resp)) :
    resp.job_id = jid ∧ resp.success = true ∧
      ∀ k ∈ filesKeys resp, Event.s3write k ∈ evs := by
  unfold dot_plot_results at h
  split at h
  · simp at h
  · split at h
    · simp at h
    · split at h
      · simp only [Prod.mk.injEq, Except.ok.injEq] at h
        obtain ⟨he, hr⟩ := h
        subst he; subst hr
        refine ⟨rfl, rfl, ?_⟩
        intro k hk
        simp [filesKeys] at hk
        simp [hk]
      · simp at h

/-- Helper: a normal return of `heatmaps_plot_results` echoes the job id and
has written every storage key its response lists. -/
theorem heatmaps_plot_results_ok {ext : Ext} {meta pvalues : JValue}
    {jid : String} {evs : List Event} {resp : Response}
    (h : heatmaps_plot_results ext meta pvalues jid = (evs, .ok resp)) :
    resp.job_id = jid ∧ resp.success = true ∧
      ∀ k ∈ filesKeys resp, Event.s3write k ∈ evs := by
  unfold heatmaps_plot_results at h
  split at h
  · simp at h
  · split at h
    · simp at h
    · split at h
      · simp at h
      · simp only [Prod.mk.injEq, Except.ok.injEq] at h
        obtain ⟨he, hr⟩ := h
        subst he; subst hr
        refine ⟨rfl, rfl, ?_⟩
        intro k hk
        simp [filesKeys] at hk
        rcases hk with hk | hk <;> simp [hk]

/-- Helper: a normal return of `plotPrelude` determines its components from
the payload. -/
theorem plotPrelude_ok {kv : JObj} {a : String} {m : JObj} {t : JValue}
    (h : plotPrelude (some kv) = .ok (a, m, t)) :
    ∃ jid, jitem kv "job_id" = .ok jid ∧ a = pyStr jid ∧ m = kv ∧
      t = jget kv "type" JValue.null := by
  unfold plotPrelude at h
  simp only [jsonLoads] at h
  split at h
  · simp at h
  · rename_i jid hj
    simp only [Except.ok.injEq, Prod.mk.injEq] at h
    exact ⟨jid, hj, h.1.symm, h.2.1.symm, h.2.2.symm⟩

/-- Helper: a normal return of `methodPrelude` determines its job id,
metadata and iterations value from the payload. -/
theorem methodPrelude_ok {ext : Ext} {kv : JObj} {a : String} {m : JObj}
    {sub : Option Subsampler} {itv : JValue}
    (h : methodPrelude ext (some kv) = .ok (a, m, sub, itv)) :
    ∃ jid, jitem kv "job_id" = .ok jid ∧ a = pyStr jid ∧ m = kv ∧
      jitem kv "iterations" = .ok itv := by
  unfold methodPrelude at h
  simp only [jsonLoads] at h
  split at h
  · simp at h
  · rename_i jid hj
    split at h
    · simp at h
    · split at h
      · simp at h
      · split at h
        · simp at h
        · split at h
          · simp at h
          · split at h
            · simp at h
            · split at h
              · simp at h
              · rename_i itv2 hitv
                simp only [Except.ok.injEq, Prod.mk.injEq] at h
                obtain ⟨h1, h2, _, h4⟩ := h
                exact ⟨jid, hj, h1.symm, h2.symm, h4 ▸ hitv⟩

/-- Helper: a normal return of `process_plot` echoes the payload job id and
has written every storage key its response lists. -/
theorem process_plot_ok {ext : Ext} {kv : JObj} {evs : List Event} {resp : Response}
    (h : process_plot ext (some kv) = (evs, .ok resp)) :
    ∃ jid, jitem kv "job_id" = .ok jid ∧ resp.job_id = pyStr jid ∧
      ∀ k ∈ filesKeys resp, Event.s3write k ∈ evs := by
  unfold process_plot at h
  cases hpre : plotPrelude (some kv) with
  | error e => rw [hpre] at h; simp at h
  | ok trip =>
    rw [hpre] at h
    obtain ⟨job_id, metadata, plot_type⟩ := trip
    obtain ⟨jid, hj, hA, hM, hT⟩ := plotPrelude_ok hpre
    subst hA
    dsimp only at h
    by_cases hd : plot_type = JValue.str "dot_plot"
    · rw [if_pos hd] at h
      obtain ⟨h1, h2, h3⟩ := dot_plot_results_ok h
      exact ⟨jid, hj, h1, h3⟩
    · rw [if_neg hd] at h
      by_cases hh : plot_type = JValue.str "heatmaps_plot"
      · rw [if_pos hh] at h
        obtain ⟨h1, h2, h3⟩ := heatmaps_plot_results_ok h
        exact ⟨jid, hj, h1, h3⟩
      · rw [if_neg hh] at h
        simp only [Prod.mk.injEq, Except.ok.injEq] at h
        obtain ⟨he, hr⟩ := h
        subst hr
        exact ⟨jid, hj, rfl, by intro k hk; simp [filesKeys] at hk⟩

/-- Helper: a normal return of `process_method` echoes the payload job id
and has written every storage key its response lists. -/
theorem process_method_ok {ext : Ext} {kv : JObj} {evs : List Event} {resp : Response}
    (h : process_method ext (some kv) = (evs, .ok resp)) :
    ∃ jid, jitem kv "job_id" = .ok jid ∧ resp.job_id = pyStr jid ∧
      ∀ k ∈ filesKeys resp, Event.s3write k ∈ evs := by
  unfold process_method at h
  cases hpre : methodPrelude ext (some kv) with
  | error e => rw [hpre] at h; simp at h
  | ok quad =>
    rw [hpre] at h
    obtain ⟨job_id, metadata, sub, itv⟩ := quad
    obtain ⟨jid, hj, hA, hM, _⟩ := methodPrelude_ok hpre
    subst hA
    dsimp only at h
    by_cases ht : truthy itv = true
    · rw [if_pos ht] at h
      obtain ⟨a, _, hevs, hresp⟩ := statistical_analysis_ok h
      subst hevs; subst hresp
      refine ⟨jid, hj, rfl, ?_⟩
      intro k hk
      simp [filesKeys, statFiles] at hk
      simp [statFiles]
      tauto
    · rw [if_neg ht] at h
      obtain ⟨a, _, hevs, hresp⟩ := non_statistical_analysis_ok h
      subst hevs; subst hresp
      refine ⟨jid, hj, rfl, ?_⟩
      intro k hk
      simp [filesKeys, methodFiles] at hk
      simp [methodFiles]
      tauto

/-- Helper: a normal return of the dispatched handler echoes the payload job
id and has written every storage key its response lists. -/
theorem process_ok_facts {ext : Ext} {qn : String} {kv : JObj}
    {evs : List Event} {resp : Response}
    (h : process ext qn (some kv) = (evs, .ok resp)) :
    ∃ jid, jitem kv "job_id" = .ok jid ∧ resp.job_id = pyStr jid ∧
      ∀ k ∈ filesKeys resp, Event.s3write k ∈ evs := by
  unfold process at h
  split at h
  · exact process_plot_ok h
  · exact process_method_ok h

/-- Helper: when the handling of one message returns normally, the loop
counter is incremented by one and exactly one response is appended to the
result queue. -/
theorem handle_job_ok {ext : Ext} {qn : String} {b : Body} {s s2 : WorkerState}
    (h : handle_job ext qn b s = .ok s2) :
    s2.jobs_runned = s.jobs_runned + 1 ∧
      ∃ r, s2.published = s.published ++ [r] := by
  unfold handle_job at h
  split at h
  · simp only [Except.ok.injEq] at h
    subst h
    exact ⟨rfl, _, rfl⟩
  · split at h
    · simp at h
    · split at h
      · simp at h
      · simp only [Except.ok.injEq] at h
        subst h
        exact ⟨rfl, _, rfl⟩

/-- Helper: a non-crashing loop iteration either found the queue empty and
left the state unchanged, or handled one message. -/
theorem worker_step_ok {ext : Ext} {qn : String} {s s2 : WorkerState}
    (h : worker_step ext qn s = .ok s2) :
    s2 = s ∨
      (s2.jobs_runned = s.jobs_runned + 1 ∧ ∃ r, s2.published = s.published ++ [r]) := by
  unfold worker_step at h
  split at h
  · simp only [Except.ok.injEq] at h
    exact Or.inl h.symm
  · right
    simpa using handle_job_ok h

/-- Helper: from any state within the cap, the loop counter and the number
of published results stay at most 3. -/
theorem run_worker_le3 {ext : Ext} {qn : String} : ∀ (n : Nat) (s : WorkerState),
    s.jobs_runned ≤ 3 → s.published.length ≤ s.jobs_runned →
    (run_worker ext qn n s).state.jobs_runned ≤ 3 ∧
      (run_worker ext qn n s).state.published.length ≤ 3 := by
  intro n
  induction n with
  | zero => exact fun s h1 h2 => ⟨h1, h2.trans h1⟩
  | succ n ih =>
    intro s h1 h2
    rw [run_worker]
    by_cases hc : s.jobs_runned < 3 ∧ consume_more_jobs = true
    · rw [if_pos hc]
      cases hw : worker_step ext qn s with
      | ok s2 =>
        rcases worker_step_ok hw with he | ⟨hj, r, hp⟩
        · rw [he]; exact ih s h1 h2
        · have hl : s2.published.length = s.published.length + 1 := by simp [hp]
          exact ih s2 (by omega) (by omega)
      | error e => exact ⟨h1, h2.trans h1⟩
    · rw [if_neg hc]
      exact ⟨h1, h2.trans h1⟩

/-- Helper: when the job queue stays empty, every iteration leaves the
state unchanged and the loop guard true, so the loop never terminates. -/
theorem run_worker_empty (ext : Ext) (qn : String) :
    ∀ n : Nat, run_worker ext qn n (initState []) = .fuel_out (initState []) := by
  intro n
  induction n with
  | zero => rfl
  | succ n ih =>
    rw [run_worker]
    rw [if_pos (by decide : (initState []).jobs_runned < 3 ∧ consume_more_jobs = true)]
    exact ih

/-- C3 (counterexample): with the job queue permanently empty, a generous
budget of 50 loop iterations leaves the worker exactly in its initial state
with the loop guard still true: the loop never exits, contrary to the claim
that the process exits once the attempts/loop budget is exhausted. -/
theorem C3_counterexample :
    run_worker extOk "method_jobs" 50 (initState []) = .fuel_out (initState []) ∧
      (initState []).jobs_runned < 3 :=
  ⟨run_worker_empty extOk "method_jobs" 50, by decide⟩

/-- C3 (amended): the batch loop handles at most the fixed cap of 3 jobs per
invocation (and publishes at most 3 results) even if more are queued, because
the guard is `jobs_runned < 3`; but when the queue stays empty the counter is
never incremented, every iteration is the identity on the state, and the loop
never exits — the worker polls forever instead of stopping after a budget of
attempts. -/
theorem C3_cap_but_no_exit_on_empty_queue (ext : Ext) (qn : String)
    (qs : List Body) (n : Nat) :
    (run_worker ext qn n (initState qs)).state.jobs_runned ≤ 3 ∧
      (run_worker ext qn n (initState qs)).state.published.length ≤ 3 ∧
      run_worker ext qn n (initState []) = .fuel_out (initState []) := by
  obtain ⟨h1, h2⟩ :=
    run_worker_le3 n (initState qs) (by simp [initState]) (by simp [initState])
  exact ⟨h1, h2, run_worker_empty ext qn n⟩

/-- C5 (counterexample): a successful job handled while the broker
connection is open (not observed closed) still causes a new connection to be
created before the publish, contrary to the claim that the connection is
rebuilt only when it is observed closed. -/
theorem C5_counterexample :
    (initState [some [("job_id", JValue.str "j5"), ("type", JValue.str "nope")]]).conn_closed
        = false ∧
    connsOf (worker_step extOk "plot_jobs"
        (initState [some [("job_id", JValue.str "j5"), ("type", JValue.str "nope")]])) =
      some ((initState [some [("job_id", JValue.str "j5"),
        ("type", JValue.str "nope")]]).conns_created + 1) :=
  ⟨rfl, rfl⟩

/-- C5 (amended): immediately before the publish of a job handled without a
crash, the connection policy is: on the success path the broker connection is
rebuilt unconditionally (one fresh connection per successful job, even when
the current connection is open); on the two error paths it is rebuilt exactly
when the current connection reports closed. -/
theorem C5_reconnect_policy (ext : Ext) (qn : String) (b : Body)
    (s : WorkerState) (rest : List Body) (evs : List Event)
    (r : Except PyError Response) (kv : JObj) (jid : JValue)
    (hq : s.queue = b :: rest) (hp : process ext qn b = (evs, r))
    (hb : jsonLoads b = .ok kv) (hj : jitem kv "job_id" = .ok jid) :
    connsOf (worker_step ext qn s) =
      some (s.conns_created +
        (match r with
         | .ok _ => 1
         | .error _ => if s.conn_closed then 1 else 0)) := by
  cases r with
  | ok resp =>
    simp only [worker_step, hq, handle_job, hp, connsOf]
    rfl
  | error e =>
    simp only [worker_step, hq, handle_job, hp, hb, hj, connsOf]
    rfl

/-- C5 (witness): a concrete successful job with an open connection creates
exactly one new connection for the publish. -/
theorem C5_reconnect_policy_witness :
    connsOf (worker_step extOk "plot_jobs"
        (initState [some [("job_id", JValue.str "w5"), ("type", JValue.str "nope")]])) =
      some 2 := by
  have h := C5_reconnect_policy extOk "plot_jobs"
      (some [("job_id", JValue.str "w5"), ("type", JValue.str "nope")])
      (initState [some [("job_id", JValue.str "w5"), ("type", JValue.str "nope")]]) []
      []
      (Except.ok { job_id := "w5", success := false, files := [],
                   error := some { id := "UnknownPlotType",
                                   message := "Given plot type does not exist: nope" } })
      [("job_id", JValue.str "w5"), ("type", JValue.str "nope")] (JValue.str "w5")
      rfl rfl rfl rfl
  exact h

/-- C1 (counterexample): a plot job with an unknown type makes the handler
RETURN normally, and the worker publishes that returned dict, which is a
Failure — refuting the claim that the Result published on handler return is
a Success. -/
theorem C1_counterexample :
    (process extOk "plot_jobs"
        (some [("job_id", JValue.str "j1"), ("type", JValue.str "unknown_type")])).2 =
      .ok { job_id := "j1", success := false, files := [],
            error := some { id := "UnknownPlotType",
                            message := "Given plot type does not exist: unknown_type" } } ∧
    publishedOf (worker_step extOk "plot_jobs"
        (initState [some [("job_id", JValue.str "j1"), ("type", JValue.str "unknown_type")]])) =
      some [{ job_id := "j1", success := false, files := [],
              error := some { id := "UnknownPlotType",
                              message := "Given plot type does not exist: unknown_type" } }] :=
  ⟨rfl, rfl⟩

/-- C1 (amended): for every dequeued message whose body decodes to JSON
containing a `job_id` field, the worker publishes exactly one Result — the
dict returned by the handler on normal return (a Success except for
unknown-plot-type payloads, where the returned dict is itself a Failure), or
a Failure built at the dispatcher on handler exception — and the published
`job_id` equals the `job_id` field of the message body.  (A body that does
not decode, or decodes without `job_id`, instead crashes the loop, see C2.) -/
theorem C1_one_result_per_valid_message (ext : Ext) (qn : String) (kv : JObj)
    (jid : JValue) (s : WorkerState) (rest : List Body)
    (hq : s.queue = some kv :: rest) (hj : jitem kv "job_id" = .ok jid) :
    ∃ r, publishedOf (worker_step ext qn s) = some (s.published ++ [r]) ∧
      r.job_id = pyStr jid ∧
      ((process ext qn (some kv)).2 = .ok r ∨
        ((process ext qn (some kv)).2.isOk = false ∧ r.success = false)) := by
  cases hp : process ext qn (some kv) with
  | mk evs pr =>
    cases pr with
    | ok resp =>
      obtain ⟨jid2, hj2, hrid, _⟩ := process_ok_facts hp
      rw [hj] at hj2
      injection hj2 with hjj
      refine ⟨resp, ?_, ?_, Or.inl rfl⟩
      · simp only [worker_step, hq, handle_job, hp, publishedOf]
        rfl
      · rw [hrid, hjj]
    | error e =>
      refine ⟨{ job_id := pyStr jid, success := false, files := [],
                error := some (if isClassified e then
                    { id := str_e e, message := errMessage e }
                  else { id := "unknown_error", message := "" }) }, ?_, rfl,
        Or.inr ⟨rfl, rfl⟩⟩
      simp only [worker_step, hq, handle_job, hp, jsonLoads, hj, publishedOf]
      rfl

/-- C1 (witness): a concrete method job whose handling raises (missing
`file_meta`) still yields exactly one published Failure echoing the job id. -/
theorem C1_one_result_per_valid_message_witness :
    ∃ r, publishedOf (worker_step extOk "method_jobs"
        (initState [some [("job_id", JValue.str "w1")]])) =
      some ((initState [some [("job_id", JValue.str "w1")]]).published ++ [r]) ∧
      r.job_id = pyStr (JValue.str "w1") ∧
      ((process extOk "method_jobs" (some [("job_id", JValue.str "w1")])).2 = .ok r ∨
        ((process extOk "method_jobs" (some [("job_id", JValue.str "w1")])).2.isOk = false ∧
          r.success = false)) :=
  C1_one_result_per_valid_message extOk "method_jobs" [("job_id", JValue.str "w1")]
    (JValue.str "w1") (initState [some [("job_id", JValue.str "w1")]]) [] rfl rfl

/-- C2 (counterexample): a payload that is valid JSON but lacks the required
`job_id` field makes the handler raise `KeyError`; rebuilding the error
response inside the except block re-raises the same `KeyError`, which
propagates past the dispatcher: the loop crashes and no Failure Result is
published, contrary to the claim that every per-job error is converted into
a published Failure. -/
theorem C2_counterexample :
    worker_step extOk "method_jobs" (initState [some []]) =
      .error (.keyError "job_id") := rfl

/-- C2 (amended): every handler exception on a payload whose body decodes to
JSON containing `job_id` is caught at the dispatcher boundary and converted
into exactly one published Failure Result (classified exceptions keep
`str(e)` as id, all others get id `unknown_error`), and the loop proceeds to
the next job; but a payload missing `job_id` (or with an undecodable body)
makes the except block itself raise, the exception propagates past the
dispatcher and aborts the batch with nothing published (see the
counterexample). -/
theorem C2_per_job_error_isolation (ext : Ext) (qn : String) (b : Body)
    (kv : JObj) (jid : JValue) (e : PyError) (evs : List Event)
    (s : WorkerState) (rest : List Body)
    (hq : s.queue = b :: rest) (hb : jsonLoads b = .ok kv)
    (hj : jitem kv "job_id" = .ok jid)
    (hp : process ext qn b = (evs, .error e)) :
    publishedOf (worker_step ext qn s) =
      some (s.published ++
        [{ job_id := pyStr jid, success := false, files := [],
           error := some (if isClassified e then
               { id := str_e e, message := errMessage e }
             else { id := "unknown_error", message := "" }) }]) ∧
    runnedOf (worker_step ext qn s) = some (s.jobs_runned + 1) ∧
    queueOf (worker_step ext qn s) = some rest := by
  refine ⟨?_, ?_, ?_⟩ <;>
    · simp only [worker_step, hq, handle_job, hp, hb, hj, publishedOf, runnedOf, queueOf]
      rfl

/-- C2 (witness): a concrete method job missing `file_meta` raises a
`KeyError`, which is converted into a published generic Failure and the
loop continues. -/
theorem C2_per_job_error_isolation_witness :
    publishedOf (worker_step extOk "method_jobs"
        (initState [some [("job_id", JValue.str "w2")]])) =
      some [{ job_id := "w2", success := false, files := [],
              error := some { id := "unknown_error", message := "" } }] ∧
    runnedOf (worker_step extOk "method_jobs"
        (initState [some [("job_id", JValue.str "w2")]])) = some 1 ∧
    queueOf (worker_step extOk "method_jobs"
        (initState [some [("job_id", JValue.str "w2")]])) = some [] := by
  have h := C2_per_job_error_isolation extOk "method_jobs"
      (some [("job_id", JValue.str "w2")]) [("job_id", JValue.str "w2")]
      (JValue.str "w2") (.keyError "file_meta") []
      (initState [some [("job_id", JValue.str "w2")]]) [] rfl rfl rfl rfl
  exact h

/-- C6: for every plot job (valid body with a `job_id` field) whose declared
type is neither `dot_plot` nor `heatmaps_plot`, the published Result is a
Failure with error id exactly `UnknownPlotType` and the message names the
offending type. -/
theorem C6_unknown_plot_type (ext : Ext) (kv : JObj) (jid t : JValue)
    (s : WorkerState) (rest : List Body)
    (hq : s.queue = some kv :: rest)
    (hj : jitem kv "job_id" = .ok jid)
    (ht : jget kv "type" JValue.null = t)
    (h1 : t ≠ JValue.str "dot_plot") (h2 : t ≠ JValue.str "heatmaps_plot") :
    publishedOf (worker_step ext "plot_jobs" s) =
      some (s.published ++
        [{ job_id := pyStr jid, success := false, files := [],
           error := some { id := "UnknownPlotType",
                           message := "Given plot type does not exist: " ++ pyStr t } }]) := by
  have hpre : plotPrelude (some kv) = .ok (pyStr jid, kv, t) := by
    simp [plotPrelude, jsonLoads, hj, ht]
  have hpp : process ext "plot_jobs" (some kv) =
      ([], .ok { job_id := pyStr jid, success := false, files := [],
                 error := some { id := "UnknownPlotType",
                                 message := "Given plot type does not exist: " ++ pyStr t } }) := by
    unfold process process_plot
    rw [if_pos rfl, hpre]
    dsimp only
    rw [if_neg h1, if_neg h2]
  simp only [worker_step, hq, handle_job, hpp, publishedOf]
  rfl

/-- C6 (witness): a concrete plot job with type `unknown_type` yields the
published `UnknownPlotType` Failure naming the type. -/
theorem C6_unknown_plot_type_witness :
    publishedOf (worker_step extOk "plot_jobs"
        (initState [some [("job_id", JValue.str "w6"), ("type", JValue.str "unknown_type")]])) =
      some [{ job_id := "w6", success := false, files := [],
              error := some { id := "UnknownPlotType",
                              message := "Given plot type does not exist: unknown_type" } }] := by
  have h := C6_unknown_plot_type extOk
      [("job_id", JValue.str "w6"), ("type", JValue.str "unknown_type")]
      (JValue.str "w6") (JValue.str "unknown_type")
      (initState [some [("job_id", JValue.str "w6"), ("type", JValue.str "unknown_type")]]) []
      rfl rfl rfl (by decide) (by decide)
  exact h

/-- C7 (counterexample): a payload without `job_id` on the plot queue raises
an unclassified exception (`KeyError`) during handling, yet no Failure Result
is published at all — the except block itself re-raises and the loop crashes —
contrary to the claim that every unclassified exception leads to a published
generic Failure. -/
theorem C7_counterexample :
    isClassified (.keyError "job_id") = false ∧
    worker_step extOk "plot_jobs" (initState [some [("foo", JValue.str "x")]]) =
      .error (.keyError "job_id") :=
  ⟨rfl, rfl⟩

/-- C7 (amended): for every exception during job handling that is not one of
the classified domain exceptions, on a payload whose body decodes to JSON
containing `job_id`, the published Result is a Failure whose error id is
exactly `unknown_error` with an empty message — so no diagnostic detail of
the exception reaches the published message.  (Without a decodable `job_id`
the loop crashes and nothing is published, see the counterexample.) -/
theorem C7_unclassified_generic_failure (ext : Ext) (qn : String) (b : Body)
    (kv : JObj) (jid : JValue) (e : PyError) (evs : List Event)
    (s : WorkerState) (rest : List Body)
    (hq : s.queue = b :: rest) (hb : jsonLoads b = .ok kv)
    (hj : jitem kv "job_id" = .ok jid)
    (hp : process ext qn b = (evs, .error e))
    (hcl : isClassified e = false) :
    publishedOf (worker_step ext qn s) =
      some (s.published ++
        [{ job_id := pyStr jid, success := false, files := [],
           error := some { id := "unknown_error", message := "" } }]) := by
  simp only [worker_step, hq, handle_job, hp, hb, hj, publishedOf, hcl,
    Bool.false_eq_true, if_false]
  rfl

/-- C7 (witness): a dot-plot job whose S3 staging raises an unclassified
exception with diagnostic text `boom` yields a published Failure with id
`unknown_error` and empty message. -/
theorem C7_unclassified_generic_failure_witness :
    publishedOf (worker_step { extOk with s3_get := fun _ => .error (.other "boom") }
        "plot_jobs"
        (initState [some [("job_id", JValue.str "w7"), ("type", JValue.str "dot_plot")]])) =
      some [{ job_id := "w7", success := false, files := [],
              error := some { id := "unknown_error", message := "" } }] := by
  have h := C7_unclassified_generic_failure
      { extOk with s3_get := fun _ => .error (.other "boom") } "plot_jobs"
      (some [("job_id", JValue.str "w7"), ("type", JValue.str "dot_plot")])
      [("job_id", JValue.str "w7"), ("type", JValue.str "dot_plot")]
      (JValue.str "w7") (.other "boom") []
      (initState [some [("job_id", JValue.str "w7"), ("type", JValue.str "dot_plot")]]) []
      rfl rfl rfl rfl rfl
  exact h

/-- C10: for a heatmaps_plot job whose expected output files are absent
after the plotting call, the published Failure's error id equals the full
`PlotException` message `Could not generate output file for plot of type
dot_plot` — a sentence naming `dot_plot` rather than `heatmaps_plot` — and
the published message is empty. -/
theorem C10_heatmaps_failure_id (ext : Ext) (kv : JObj) (jid : JValue)
    (s : WorkerState) (rest : List Body)
    (hq : s.queue = some kv :: rest)
    (hj : jitem kv "job_id" = .ok jid)
    (ht : jget kv "type" JValue.null = JValue.str "heatmaps_plot")
    (hg1 : ext.s3_get (pyStr (jget kv "file_pvalues" JValue.null)) = .ok ())
    (hg2 : ext.s3_get (pyStr (jget kv "file_meta" JValue.null)) = .ok ())
    (hcall : ext.heatmaps_plot_call = .ok ())
    (hmiss : ext.heatmaps_count_exists = false) :
    publishedOf (worker_step ext "plot_jobs" s) =
      some (s.published ++
        [{ job_id := pyStr jid, success := false, files := [],
           error := some { id := "Could not generate output file for plot of type dot_plot",
                           message := "" } }]) := by
  have hpre : plotPrelude (some kv) = .ok (pyStr jid, kv, JValue.str "heatmaps_plot") := by
    simp [plotPrelude, jsonLoads, hj, ht]
  have hstage : stage_heatmaps_inputs ext (jget kv "file_meta" JValue.null)
      (jget kv "file_pvalues" JValue.null) = .ok () := by
    unfold stage_heatmaps_inputs
    rw [hg1]
    exact hg2
  have hh : heatmaps_plot_results ext (jget kv "file_meta" JValue.null)
      (jget kv "file_pvalues" JValue.null) (pyStr jid) =
      ([Event.plotCall "heatmaps_plot"],
       .error (.domain "PlotException"
         "Could not generate output file for plot of type dot_plot" none none)) := by
    unfold heatmaps_plot_results
    rw [hstage, hcall, hmiss]
    rfl
  have hpp : process ext "plot_jobs" (some kv) =
      ([Event.plotCall "heatmaps_plot"],
       .error (.domain "PlotException"
         "Could not generate output file for plot of type dot_plot" none none)) := by
    unfold process process_plot
    rw [if_pos rfl, hpre]
    dsimp only
    rw [if_neg (by decide), if_pos rfl]
    exact hh
  simp only [worker_step, hq, handle_job, hpp, jsonLoads, hj, publishedOf]
  rfl

/-- C10 (witness): a concrete heatmaps job against an oracle where the count
plot output file is missing publishes the Failure whose id is the dot_plot
sentence. -/
theorem C10_heatmaps_failure_id_witness :
    publishedOf (worker_step
        { extOk with heatmaps_count_exists := false } "plot_jobs"
        (initState [some [("job_id", JValue.str "wX"), ("type", JValue.str "heatmaps_plot"),
                          ("file_meta", JValue.str "m"), ("file_pvalues", JValue.str "p")]])) =
      some [{ job_id := "wX", success := false, files := [],
              error := some { id := "Could not generate output file for plot of type dot_plot",
                              message := "" } }] := by
  have h := C10_heatmaps_failure_id { extOk with heatmaps_count_exists := false }
      [("job_id", JValue.str "wX"), ("type", JValue.str "heatmaps_plot"),
       ("file_meta", JValue.str "m"), ("file_pvalues", JValue.str "p")]
      (JValue.str "wX")
      (initState [some [("job_id", JValue.str "wX"), ("type", JValue.str "heatmaps_plot"),
                        ("file_meta", JValue.str "m"), ("file_pvalues", JValue.str "p")]]) []
      rfl rfl rfl rfl rfl rfl rfl
  exact h

/-- C8: for every method job whose prelude succeeds with an integer
`iterations` value, iterations 0 selects the non-statistical analysis and
iterations > 0 the statistical analysis; when the optional `pvalue` field is
absent the coerced statistical arguments carry pvalue 0.05 (= 1/20), and the
statistical path invokes the launcher with exactly those arguments (first
trace event). -/
theorem C8_iterations_selects_path (ext : Ext) (b : Body) (job_id : String)
    (kv : JObj) (sub : Option Subsampler) (n : Int) (a : StatArgs)
    (hpre : methodPrelude ext b = .ok (job_id, kv, sub, JValue.int n)) :
    (n = 0 → process_method ext b = non_statistical_analysis ext job_id kv sub) ∧
    (0 < n → process_method ext b = statistical_analysis ext job_id kv sub) ∧
    (List.lookup "pvalue" kv = none → statArgs kv = .ok a → a.pvalue = mkRat 1 20) ∧
    (statArgs kv = .ok a →
      (statistical_analysis ext job_id kv sub).1.head? = some (Event.statCall a)) := by
  refine ⟨?_, ?_, ?_, ?_⟩
  · intro h0
    subst h0
    unfold process_method
    rw [hpre]
    dsimp only
    rw [if_neg (by decide)]
  · intro hn
    have htr : truthy (JValue.int n) = true := by
      simp only [truthy, decide_eq_true_eq]
      omega
    unfold process_method
    rw [hpre]
    dsimp only
    rw [if_pos htr]
  · intro hl ha
    unfold statArgs at ha
    have hg : jget kv "pvalue" (JValue.float (mkRat 1 20)) = JValue.float (mkRat 1 20) := by
      simp [jget, hl]
    rw [hg] at ha
    simp only [pyFloat] at ha
    split at ha
    · simp at ha
    · split at ha
      · simp at ha
      · split at ha
        · simp at ha
        · split at ha
          · simp at ha
          · split at ha
            · simp at ha
            · split at ha
              · simp at ha
              · simp only [Except.ok.injEq] at ha
                subst ha
                rfl
  · intro ha
    unfold statistical_analysis
    rw [ha]
    cases hl2 : ext.stat_launcher <;> rfl

/-- C8 (witness): a concrete method job with iterations 5 and no pvalue
field takes the statistical path with pvalue 1/20 passed to the launcher. -/
theorem C8_iterations_selects_path_witness :
    process_method extOk (methodBody "w8" 5) =
      statistical_analysis extOk "w8"
        [("job_id", JValue.str "w8"), ("file_meta", JValue.str "meta_key"),
         ("file_counts", JValue.str "counts_key"), ("iterations", JValue.int 5),
         ("threshold", JValue.float (mkRat 1 2)), ("result_precision", JValue.int 6)] none ∧
    (⟨mkRat 1 2, 5, 6, mkRat 1 20⟩ : StatArgs).pvalue = mkRat 1 20 ∧
    (statistical_analysis extOk "w8"
        [("job_id", JValue.str "w8"), ("file_meta", JValue.str "meta_key"),
         ("file_counts", JValue.str "counts_key"), ("iterations", JValue.int 5),
         ("threshold", JValue.float (mkRat 1 2)), ("result_precision", JValue.int 6)]
        none).1.head? =
      some (Event.statCall ⟨mkRat 1 2, 5, 6, mkRat 1 20⟩) := by
  have h := C8_iterations_selects_path extOk (methodBody "w8" 5) "w8"
      [("job_id", JValue.str "w8"), ("file_meta", JValue.str "meta_key"),
       ("file_counts", JValue.str "counts_key"), ("iterations", JValue.int 5),
       ("threshold", JValue.float (mkRat 1 2)), ("result_precision", JValue.int 6)]
      none 5 ⟨mkRat 1 2, 5, 6, mkRat 1 20⟩ rfl
  exact ⟨h.2.1 (by decide), h.2.2.1 rfl rfl, h.2.2.2 rfl⟩

/-- C4 (counterexample): for a method job with iterations 10 the Success
Result's storage keys are `pvalues_simple_<id>.txt`, `means_simple_<id>.txt`,
`significant_means_simple_<id>.txt`, `deconvoluted_simple_<id>.txt` — neither
`significant_means_<id>` nor `significant_means_<id>.txt` (nor the
extension-less `means_simple_<id>`) occurs, contrary to the claimed key set. -/
theorem C4_counterexample :
    successOf (process_method extOk (methodBody "j4" 10)) = some true ∧
    (filesKeysOf (process_method extOk (methodBody "j4" 10))).getD [] =
      ["pvalues_simple_j4.txt", "means_simple_j4.txt",
       "significant_means_simple_j4.txt", "deconvoluted_simple_j4.txt"] ∧
    "significant_means_j4" ∉ (filesKeysOf (process_method extOk (methodBody "j4" 10))).getD [] ∧
    "significant_means_j4.txt" ∉ (filesKeysOf (process_method extOk (methodBody "j4" 10))).getD [] ∧
    "means_simple_j4" ∉ (filesKeysOf (process_method extOk (methodBody "j4" 10))).getD [] := by
  refine ⟨rfl, rfl, ?_, ?_, ?_⟩ <;> decide

/-- C4 (amended): for a method job with iterations 0 the Success Result's
storage keys are exactly `means_simple_<id>.txt`, `significant_means_<id>.txt`,
`deconvoluted_simple_<id>.txt`; for iterations > 0 they are exactly
`pvalues_simple_<id>.txt`, `means_simple_<id>.txt`,
`significant_means_simple_<id>.txt`, `deconvoluted_simple_<id>.txt` (the
statistical path renames the significant-means key and adds the pvalues
key). -/
theorem C4_files_mapping (ext : Ext) (b : Body) (job_id : String) (kv : JObj)
    (sub : Option Subsampler) (n : Int) (evs : List Event) (resp : Response)
    (hpre : methodPrelude ext b = .ok (job_id, kv, sub, JValue.int n))
    (hp : process_method ext b = (evs, .ok resp)) :
    resp.success = true ∧
    (n = 0 → filesKeys resp =
      ["means_simple_" ++ job_id ++ ".txt", "significant_means_" ++ job_id ++ ".txt",
       "deconvoluted_simple_" ++ job_id ++ ".txt"]) ∧
    (0 < n → filesKeys resp =
      ["pvalues_simple_" ++ job_id ++ ".txt", "means_simple_" ++ job_id ++ ".txt",
       "significant_means_simple_" ++ job_id ++ ".txt",
       "deconvoluted_simple_" ++ job_id ++ ".txt"]) := by
  unfold process_method at hp
  rw [hpre] at hp
  dsimp only at hp
  by_cases ht : truthy (JValue.int n) = true
  · rw [if_pos ht] at hp
    obtain ⟨a, ha, hevs, hresp⟩ := statistical_analysis_ok hp
    subst hresp
    refine ⟨rfl, ?_, ?_⟩
    · intro h0
      subst h0
      simp [truthy] at ht
    · intro _
      simp [filesKeys, statFiles]
  · rw [if_neg ht] at hp
    obtain ⟨a, ha, hevs, hresp⟩ := non_statistical_analysis_ok hp
    subst hresp
    refine ⟨rfl, ?_, ?_⟩
    · intro _
      simp [filesKeys, methodFiles]
    · intro hn
      exfalso
      apply ht
      simp only [truthy, decide_eq_true_eq]
      omega

/-- C4 (witness): a concrete method job with iterations 7 carries exactly
the four statistical storage keys. -/
theorem C4_files_mapping_witness :
    ({ job_id := "w4", success := true, files := statFiles "w4", error := none } : Response).success = true ∧
    ((7 : Int) = 0 → filesKeys { job_id := "w4", success := true, files := statFiles "w4", error := none } =
      ["means_simple_w4.txt", "significant_means_w4.txt", "deconvoluted_simple_w4.txt"]) ∧
    ((0 : Int) < 7 → filesKeys { job_id := "w4", success := true, files := statFiles "w4", error := none } =
      ["pvalues_simple_w4.txt", "means_simple_w4.txt",
       "significant_means_simple_w4.txt", "deconvoluted_simple_w4.txt"]) := by
  have h := C4_files_mapping extOk (methodBody "w4" 7) "w4"
      [("job_id", JValue.str "w4"), ("file_meta", JValue.str "meta_key"),
       ("file_counts", JValue.str "counts_key"), ("iterations", JValue.int 7),
       ("threshold", JValue.float (mkRat 1 2)), ("result_precision", JValue.int 6)]
      none 7
      (Event.statCall ⟨mkRat 1 2, 7, 6, mkRat 1 20⟩ ::
        (statFiles "w4").map (fun p : String × String => Event.s3write p.2))
      { job_id := "w4", success := true, files := statFiles "w4", error := none }
      rfl rfl
  exact h

/-- C9: whenever a handler returns normally, every storage key listed in the
returned response was written by the handler (an `s3write` event of its
trace), and the publish event is appended strictly after the whole handler
trace — so every listed key is written to the object store before the
Result is published. -/
theorem C9_writes_precede_publish (ext : Ext) (qn : String) (b : Body)
    (s : WorkerState) (rest : List Body) (evs : List Event) (resp : Response)
    (hq : s.queue = b :: rest)
    (hp : process ext qn b = (evs, .ok resp)) :
    (∀ k ∈ filesKeys resp, Event.s3write k ∈ evs) ∧
    eventsOf (worker_step ext qn s) = some (s.events ++ evs ++ [Event.publish resp]) := by
  constructor
  · cases b with
    | none =>
      exfalso
      unfold process at hp
      by_cases hqn : qn = "plot_jobs"
      · rw [if_pos hqn] at hp
        rw [show process_plot ext none = ([], Except.error PyError.jsonDecodeError) from rfl] at hp
        simp at hp
      · rw [if_neg hqn] at hp
        rw [show process_method ext none = ([], Except.error PyError.jsonDecodeError) from rfl] at hp
        simp at hp
    | some kv =>
      obtain ⟨jid, _, _, hw⟩ := process_ok_facts hp
      exact hw
  · simp only [worker_step, hq, handle_job, hp, eventsOf]
    rfl

/-- C9 (witness): a concrete non-statistical method job writes its three
listed storage keys within the handler trace and the publish event follows
the whole trace. -/
theorem C9_writes_precede_publish_witness :
    (∀ k ∈ filesKeys { job_id := "w9", success := true, files := methodFiles "w9", error := none },
        Event.s3write k ∈
          Event.methodCall (mkRat 1 2) 6 :: (methodFiles "w9").map (fun p : String × String => Event.s3write p.2)) ∧
    eventsOf (worker_step extOk "method_jobs" (initState [methodBody "w9" 0])) =
      some ((initState [methodBody "w9" 0]).events ++
        (Event.methodCall (mkRat 1 2) 6 :: (methodFiles "w9").map (fun p : String × String => Event.s3write p.2)) ++
        [Event.publish { job_id := "w9", success := true, files := methodFiles "w9", error := none }]) := by
  have h := C9_writes_precede_publish extOk "method_jobs" (methodBody "w9" 0)
      (initState [methodBody "w9" 0]) []
      (Event.methodCall (mkRat 1 2) 6 :: (methodFiles "w9").map (fun p : String × String => Event.s3write p.2))
      { job_id := "w9", success := true, files := methodFiles "w9", error := none }
      rfl rfl
  exact h

end CpdbWorker
